import Mathlib

/-!
Verification development for the `claude_oauth` Python package
(`pkce.py`, `storage.py`, `oauth.py`, `client.py`).

The Python code is shallowly embedded: pure functions become Lean
functions, HTTP calls are modelled by passing the provider's response as
an explicit argument, the on-disk credential store is threaded as an
explicit `Option` value, and Python exceptions become `Except PyErr`.
JSON values (as produced by `json.loads`) are modelled by the inductive
type `Json`; the parser `jsonLoads` covers the JSON subset exercised by
the package (objects, arrays, strings with the common escapes, integers,
booleans, null).
-/

namespace ClaudeOAuth

/-- Model of a Python value produced by `json.loads`: null, booleans,
integers, strings, arrays and objects.  (Float literals are outside the
modelled subset; every payload handled by the package is integral.) -/
inductive Json where
  | null : Json
  | bool (flag : Bool) : Json
  | num (i : Int) : Json
  | str (text : String) : Json
  | arr (items : List Json) : Json
  | obj (entries : List (String × Json)) : Json

/-- JSON insignificant whitespace accepted by `json.loads`. -/
def isJsonWs (c : Char) : Bool :=
  c = ' ' || c = '\t' || c = '\n' || c = '\r'

def skipWs (cs : List Char) : List Char := cs.dropWhile isJsonWs

/-- The string escapes handled by the model (`\" \\ \/ \n \t \r`). -/
def escChar (e : Char) : Option Char :=
  if e = '"' || e = '\\' || e = '/' then some e
  else if e = 'n' then some (Char.ofNat 10)
  else if e = 't' then some (Char.ofNat 9)
  else if e = 'r' then some (Char.ofNat 13)
  else none

/-- Parse the body of a JSON string literal (after the opening quote),
returning the decoded characters and the rest of the input. -/
def parseStringBody : List Char → Option (List Char × List Char)
  | [] => none
  | '"' :: rest => some ([], rest)
  | '\\' :: e :: rest =>
      match escChar e with
      | some d => (parseStringBody rest).map (fun sr => (d :: sr.1, sr.2))
      | none => none
  | ['\\'] => none
  | c :: rest => (parseStringBody rest).map (fun sr => (c :: sr.1, sr.2))

/-- Parse a nonempty run of decimal digits. -/
def parseNatLit (cs : List Char) : Option (Nat × List Char) :=
  let ds := cs.takeWhile Char.isDigit
  if ds.isEmpty then none
  else some (ds.foldl (fun a c => a * 10 + (c.toNat - 48)) 0, cs.dropWhile Char.isDigit)

mutual

/-- Fuel-indexed recursive-descent parser for a `Json` value. -/
def parseValue : Nat → List Char → Option (Json × List Char)
  | 0, _ => none
  | fuel + 1, cs =>
    match skipWs cs with
    | 'n' :: 'u' :: 'l' :: 'l' :: rest => some (Json.null, rest)
    | 't' :: 'r' :: 'u' :: 'e' :: rest => some (Json.bool true, rest)
    | 'f' :: 'a' :: 'l' :: 's' :: 'e' :: rest => some (Json.bool false, rest)
    | '"' :: rest =>
        match parseStringBody rest with
        | some (s, rest₂) => some (Json.str (String.mk s), rest₂)
        | none => none
    | '-' :: rest =>
        match parseNatLit rest with
        | some (n, rest₂) => some (Json.num (-(n : Int)), rest₂)
        | none => none
    | '[' :: rest =>
        (match skipWs rest with
         | ']' :: rest₂ => some (Json.arr [], rest₂)
         | _ =>
            match parseElems fuel rest with
            | some (es, rest₂) => some (Json.arr es, rest₂)
            | none => none)
    | '\x7b' :: rest =>
        (match skipWs rest with
         | '\x7d' :: rest₂ => some (Json.obj [], rest₂)
         | _ =>
            match parseFields fuel rest with
            | some (fs, rest₂) => some (Json.obj fs, rest₂)
            | none => none)
    | c :: rest =>
        if c.isDigit then
          match parseNatLit (c :: rest) with
          | some (n, rest₂) => some (Json.num (n : Int), rest₂)
          | none => none
        else none
    | [] => none

/-- Parse a comma-separated list of array elements followed by `]`. -/
def parseElems : Nat → List Char → Option (List Json × List Char)
  | 0, _ => none
  | fuel + 1, cs =>
    match parseValue fuel cs with
    | some (v, rest) =>
        (match skipWs rest with
         | ',' :: rest₂ =>
            match parseElems fuel rest₂ with
            | some (vs, rest₃) => some (v :: vs, rest₃)
            | none => none
         | ']' :: rest₂ => some ([v], rest₂)
         | _ => none)
    | none => none

/-- Parse a comma-separated list of object members followed by the
closing brace. -/
def parseFields : Nat → List Char → Option (List (String × Json) × List Char)
  | 0, _ => none
  | fuel + 1, cs =>
    match skipWs cs with
    | '"' :: rest =>
        (match parseStringBody rest with
         | some (k, rest₂) =>
            (match skipWs rest₂ with
             | ':' :: rest₃ =>
                (match parseValue fuel rest₃ with
                 | some (v, rest₄) =>
                    (match skipWs rest₄ with
                     | ',' :: rest₅ =>
                        match parseFields fuel rest₅ with
                        | some (fs, rest₆) => some ((String.mk k, v) :: fs, rest₆)
                        | none => none
                     | '\x7d' :: rest₅ => some ([(String.mk k, v)], rest₅)
                     | _ => none)
                 | none => none)
             | _ => none)
         | none => none)
    | _ => none

end

/-- Model of Python `json.loads`: parse the whole string, demanding that
only whitespace remains; any failure corresponds to `json.JSONDecodeError`
(returned here as `none`). -/
def jsonLoads (s : String) : Option Json :=
  match parseValue (s.length + 1) s.data with
  | some (j, rest) => if (skipWs rest).isEmpty then some j else none
  | none => none

/-- Python exceptions raised by the embedded code. -/
inductive PyErr where
  | runtimeError (msg : String)
  | keyError (key : String)
  | typeError
  | attributeError
  | indexError
  | valueError (msg : String)
  | jsonDecodeError
deriving DecidableEq

/-- Python truthiness of a JSON-decoded value (`None`, `False`, `0`,
`""`, `[]` and `\x7b\x7d` are falsy). -/
def Json.truthy : Json → Bool
  | .null => false
  | .bool b => b
  | .num n => n != 0
  | .str s => !s.isEmpty
  | .arr l => !l.isEmpty
  | .obj l => !l.isEmpty

/-- Dictionary lookup on a decoded JSON object (`json.loads` keeps the
last binding of a repeated key, hence the reversed search). -/
def Json.dictLookup : Json → String → Option Json
  | .obj fields, k => ((fields.reverse.find? (fun f => f.1 == k)).map (fun f => f.2))
  | _, _ => none

/-- Python `==` between a JSON-decoded value and a string literal
(true exactly when the value is an equal string). -/
def Json.isStrEq (j : Json) (s : String) : Bool :=
  match j with
  | .str t => t == s
  | _ => false

/-- Python `d.get(k, default)`: `AttributeError` when the receiver is not
a dict. -/
def pyGet (j : Json) (k : String) (default : Json) : Except PyErr Json :=
  match j with
  | .obj _ => .ok ((j.dictLookup k).getD default)
  | _ => .error .attributeError

/-- Python `d[k]` subscription: `KeyError` when the key is missing,
`TypeError` when the receiver is not a dict. -/
def pyIndex (j : Json) (k : String) : Except PyErr Json :=
  match j with
  | .obj _ =>
      match j.dictLookup k with
      | some v => .ok v
      | none => .error (.keyError k)
  | _ => .error .typeError

instance {ε α : Type} [DecidableEq ε] [DecidableEq α] : DecidableEq (Except ε α) :=
  fun a b =>
    match a, b with
    | .ok x, .ok y =>
        if h : x = y then .isTrue (by rw [h]) else .isFalse (by simp [h])
    | .error x, .error y =>
        if h : x = y then .isTrue (by rw [h]) else .isFalse (by simp [h])
    | .ok _, .error _ => .isFalse (by simp)
    | .error _, .ok _ => .isFalse (by simp)

/-- Decimal digits of a natural number, most significant first
(the rendering used by Python `str()` / f-string interpolation). -/
def natToDecAux (n : Nat) : List Char :=
  if n < 10 then [Nat.digitChar n]
  else natToDecAux (n / 10) ++ [Nat.digitChar (n % 10)]
termination_by n
decreasing_by exact Nat.div_lt_self (by omega) (by omega)

def natToDec (n : Nat) : String := String.mk (natToDecAux n)

/-- Python decimal rendering of a (possibly negative) integer. -/
def intToDec (n : Int) : String :=
  if n < 0 then "-" ++ natToDec n.natAbs else natToDec n.natAbs

/-- Python `str.strip()` whitespace characters (ASCII subset). -/
def isPyWs (c : Char) : Bool :=
  c = ' ' || c = '\t' || c = '\n' || c = '\r' || c = '\x0b' || c = '\x0c'

def stripChars (cs : List Char) : List Char :=
  ((cs.dropWhile isPyWs).reverse.dropWhile isPyWs).reverse

/-- Python `s.strip()`. -/
def pyStrip (s : String) : String := String.mk (stripChars s.data)

def digitsToNat (ds : List Char) : Nat :=
  ds.foldl (fun a c => a * 10 + (c.toNat - 48)) 0

/-- Python `int(s)` on a string (decimal only). -/
def strToInt (s : String) : Option Int :=
  match stripChars s.data with
  | [] => none
  | '-' :: ds =>
      if ds ≠ [] ∧ ds.all Char.isDigit then some (-(digitsToNat ds : Int)) else none
  | '+' :: ds =>
      if ds ≠ [] ∧ ds.all Char.isDigit then some ((digitsToNat ds : Int)) else none
  | ds =>
      if ds.all Char.isDigit then some ((digitsToNat ds : Int)) else none

/-- Python `str(x)` on the modelled JSON values (`str`, `int`, `bool`,
`None`; containers are outside the modelled subset). -/
def pyStr : Json → Except PyErr String
  | .str s => .ok s
  | .num n => .ok (intToDec n)
  | .bool true => .ok "True"
  | .bool false => .ok "False"
  | .null => .ok "None"
  | _ => .error .typeError

/-- Python `int(x)` on the modelled JSON values: `int` passes through,
`bool` maps to 0/1, a decimal string is parsed (`ValueError` otherwise),
anything else is a `TypeError`. -/
def pyToInt : Json → Except PyErr Int
  | .num n => .ok n
  | .bool true => .ok 1
  | .bool false => .ok 0
  | .str s =>
      match strToInt s with
      | some n => .ok n
      | none => .error (.valueError "invalid literal for int")
  | _ => .error .typeError

/-! ### `client.py`: `ChatResponse` and the `ChatStream.__aiter__` SSE loop -/

/-- `client.py` `ChatResponse` (token counts are Python ints). -/
structure ChatResponse where
  id : String
  content : String
  model : String
  stop_reason : String
  input_tokens : Int
  output_tokens : Int
deriving DecidableEq

/-- The mutable state of the `ChatStream.__aiter__` loop:
`self._full_content` plus the `final_data` dict (one `Option Json` per
key ever assigned). -/
structure StreamState where
  fullContent : String
  idJ : Option Json
  modelJ : Option Json
  stopReasonJ : Option Json
  inputTokensJ : Option Json
  outputTokensJ : Option Json

def initStreamState : StreamState := ⟨"", none, none, none, none, none⟩

/-- The body of the `try` block in `ChatStream.__aiter__`
(client.py lines 158-174) for one decoded event: returns the updated
state and the list of chunks yielded for this event. -/
def processEvent (st₀ : StreamState) (event : Json) :
    Except PyErr (StreamState × List String) := do
  let ty ← pyGet event "type" Json.null
  let sres ←
    if ty.isStrEq "content_block_delta" then do
      let delta ← pyGet event "delta" (Json.obj [])
      let textJ ← pyGet delta "text" (Json.str "")
      if textJ.truthy then
        match textJ with
        | Json.str t => pure ({ st₀ with fullContent := st₀.fullContent ++ t }, [t])
        | _ => Except.error PyErr.typeError
      else pure (st₀, ([] : List String))
    else pure (st₀, ([] : List String))
  let st₁ := sres.1
  let st₂ ←
    if ty.isStrEq "message_start" then do
      let msg ← pyGet event "message" Json.null
      if msg.truthy then do
        let msgObj ← pyIndex event "message"
        let idv ← pyIndex msgObj "id"
        let modelv ← pyIndex msgObj "model"
        pure { st₁ with idJ := some idv, modelJ := some modelv }
      else pure st₁
    else pure st₁
  let st₃ ←
    if ty.isStrEq "message_delta" then do
      let delta ← pyGet event "delta" (Json.obj [])
      let sr ← pyGet delta "stop_reason" (Json.str "")
      let usage ← pyGet event "usage" Json.null
      if usage.truthy then do
        let it ← pyGet usage "input_tokens" (Json.num 0)
        let ot ← pyGet usage "output_tokens" (Json.num 0)
        pure { st₂ with stopReasonJ := some sr, inputTokensJ := some it,
                        outputTokensJ := some ot }
      else pure { st₂ with stopReasonJ := some sr }
    else pure st₂
  pure (st₃, sres.2)

/-- One iteration of `async for line in http_response.aiter_lines()`
(client.py lines 149-177): skip lines without the `data: ` marker, skip
the `[DONE]` sentinel, skip lines whose payload fails JSON decoding
(`except json.JSONDecodeError: continue`), otherwise process the event. -/
def processLine (st : StreamState) (line : String) :
    Except PyErr (StreamState × List String) :=
  if ¬ (List.isPrefixOf "data: ".data line.data) then Except.ok (st, [])
  else
    let jsonStr := String.mk (line.data.drop 6)
    if jsonStr = "[DONE]" then Except.ok (st, [])
    else
      match jsonLoads jsonStr with
      | none => Except.ok (st, [])
      | some event => processEvent st event

/-- Materialization of `self.response` after the stream ends
(client.py lines 179-186). -/
def finalizeStream (st : StreamState) : Except PyErr ChatResponse := do
  let idS ← pyStr ((st.idJ).getD (Json.str ""))
  let modelS ← pyStr ((st.modelJ).getD (Json.str ""))
  let srS ← pyStr ((st.stopReasonJ).getD (Json.str ""))
  let it ← pyToInt ((st.inputTokensJ).getD (Json.num 0))
  let ot ← pyToInt ((st.outputTokensJ).getD (Json.num 0))
  pure { id := idS, content := st.fullContent, model := modelS, stop_reason := srS,
         input_tokens := it, output_tokens := ot }

/-- Run `ChatStream.__aiter__` over a scripted sequence of SSE lines:
returns the chunks yielded to the consumer, in order, and the finalized
`self.response`. -/
def runChatStream (lines : List String) :
    Except PyErr (List String × ChatResponse) := do
  let res ← lines.foldlM
    (fun (acc : StreamState × List String) line => do
      let r ← processLine acc.1 line
      pure (r.1, acc.2 ++ r.2))
    (initStreamState, ([] : List String))
  let resp ← finalizeStream res.1
  pure (res.2, resp)



def sseLine1 : String :=
  "data: \x7b\"type\": \"message_start\", \"message\": \x7b\"id\": \"msg_1\", \"model\": \"m1\"\x7d\x7d"

def sseLine2 : String :=
  "data: \x7b\"type\": \"content_block_delta\", \"delta\": \x7b\"text\": \"Hel\"\x7d\x7d"

def sseLine3 : String :=
  "data: \x7b\"type\": \"content_block_delta\", \"delta\": \x7b\"text\": \"lo\"\x7d\x7d"

def sseLine4 : String :=
  "data: \x7b\"type\": \"message_delta\", \"delta\": \x7b\"stop_reason\": \"end_turn\"\x7d, \"usage\": \x7b\"input_tokens\": 10, \"output_tokens\": 2\x7d\x7d"

def sseScript : List String := [sseLine1, sseLine2, sseLine3, sseLine4, "data: [DONE]"]

/-! ### `storage.py`: credentials and `load_credentials` -/

/-- `storage.py` `ClaudeOAuthCredentials` (epoch-millisecond timestamps).
The embedding types the four fields as the strings/ints the package
always stores. -/
structure ClaudeOAuthCredentials where
  access_token : String
  refresh_token : String
  expires_at : Int
  connected_at : Int
deriving DecidableEq

/-- The `ClaudeOAuthCredentials(...)` construction inside
`load_credentials` (storage.py lines 50-55): four `data[...]`
subscriptions, in source order.  A missing key is a `KeyError`; a
non-dict `data` is a `TypeError`. -/
def buildStoredCreds (data : Json) : Except PyErr ClaudeOAuthCredentials := do
  let aJ ← pyIndex data "accessToken"
  let rJ ← pyIndex data "refreshToken"
  let eJ ← pyIndex data "expiresAt"
  let cJ ← pyIndex data "connectedAt"
  match aJ, rJ, eJ, cJ with
  | .str a, .str r, .num e, .num c =>
      pure { access_token := a, refresh_token := r, expires_at := e, connected_at := c }
  | _, _, _, _ => .error .typeError

/-- `storage.py` `load_credentials`, over the credential file's content
(`none` models an absent file).  The surrounding `try` catches exactly
`json.JSONDecodeError`, `KeyError` and `OSError`; every other exception
propagates. -/
def load_credentials (fileContent : Option String) :
    Except PyErr (Option ClaudeOAuthCredentials) :=
  match fileContent with
  | none => .ok none
  | some text =>
    match jsonLoads text with
    | none => .ok none
    | some data =>
      match buildStoredCreds data with
      | .ok c => .ok (some c)
      | .error (.keyError _) => .ok none
      | .error .jsonDecodeError => .ok none
      | .error e => .error e

/-! ### `pkce.py`: SHA-256, URL-safe base64 and the PKCE pair -/

/-- 2^32, the word modulus of SHA-256. -/
def m32 : Nat := 4294967296

/-- Right rotation of a 32-bit word. -/
def rotr32 (n x : Nat) : Nat := ((x >>> n) ||| (x <<< (32 - n))) % m32

def smallSigma0 (x : Nat) : Nat := (rotr32 7 x) ^^^ (rotr32 18 x) ^^^ (x >>> 3)
def smallSigma1 (x : Nat) : Nat := (rotr32 17 x) ^^^ (rotr32 19 x) ^^^ (x >>> 10)
def bigSigma0 (x : Nat) : Nat := (rotr32 2 x) ^^^ (rotr32 13 x) ^^^ (rotr32 22 x)
def bigSigma1 (x : Nat) : Nat := (rotr32 6 x) ^^^ (rotr32 11 x) ^^^ (rotr32 25 x)
def chFn (x y z : Nat) : Nat :=
  Nat.xor (Nat.land x y) (Nat.land (Nat.xor x 4294967295) z)
def majFn (x y z : Nat) : Nat :=
  Nat.xor (Nat.xor (Nat.land x y) (Nat.land x z)) (Nat.land y z)

/-- The 64 SHA-256 round constants of FIPS 180-4 (decimal). -/
def k256 : List Nat :=
  [1116352408, 1899447441, 3049323471, 3921009573, 961987163,
   1508970993, 2453635748, 2870763221, 3624381080, 310598401,
   607225278, 1426881987, 1925078388, 2162078206, 2614888103,
   3248222580, 3835390401, 4022224774, 264347078, 604807628,
   770255983, 1249150122, 1555081692, 1996064986, 2554220882,
   2821834349, 2952996808, 3210313671, 3336571891, 3584528711,
   113926993, 338241895, 666307205, 773529912, 1294757372,
   1396182291, 1695183700, 1986661051, 2177026350, 2456956037,
   2730485921, 2820302411, 3259730800, 3345764771, 3516065817,
   3600352804, 4094571909, 275423344, 430227734, 506948616,
   659060556, 883997877, 958139571, 1322822218, 1537002063,
   1747873779, 1955562222, 2024104815, 2227730452, 2361852424,
   2428436474, 2756734187, 3204031479, 3329325298]

/-- The SHA-256 initial hash value of FIPS 180-4 (decimal). -/
def h256 : List Nat :=
  [1779033703, 3144134277, 1013904242, 2773480762,
   1359893119, 2600822924, 528734635, 1541459225]

/-- Big-endian 4-byte decomposition of a 32-bit word. -/
def beBytes4 (n : Nat) : List Nat :=
  [n / 16777216 % 256, n / 65536 % 256, n / 256 % 256, n % 256]

/-- Big-endian 8-byte decomposition of a 64-bit value. -/
def beBytes8 (n : Nat) : List Nat :=
  beBytes4 (n / m32 % m32) ++ beBytes4 (n % m32)

/-- Big-endian 32-bit words of a byte list (length a multiple of 4). -/
def bytesToWords : List Nat → List Nat
  | b₀ :: b₁ :: b₂ :: b₃ :: rest =>
      (b₀ * 16777216 + b₁ * 65536 + b₂ * 256 + b₃) :: bytesToWords rest
  | _ => []

/-- SHA-256 padding: `0x80`, zeros to 56 mod 64, then the bit length as
a big-endian 64-bit value. -/
def sha256Pad (msg : List Nat) : List Nat :=
  let len := msg.length
  let zeros := (120 - ((len + 1) % 64)) % 64
  msg ++ [0x80] ++ List.replicate zeros 0 ++ beBytes8 (len * 8)

/-- Extend 16 message-schedule words to 64. -/
def extendSchedule (ws : List Nat) : List Nat :=
  (List.range 48).foldl
    (fun acc _ =>
      let n := acc.length
      let w := (smallSigma1 (acc.getD (n - 2) 0) + acc.getD (n - 7) 0 +
                smallSigma0 (acc.getD (n - 15) 0) + acc.getD (n - 16) 0) % m32
      acc ++ [w]) ws

/-- One SHA-256 compression round over the eight working variables. -/
def sha256Round (ws : List Nat) (st : List Nat) (i : Nat) : List Nat :=
  match st with
  | [va, vb, vc, vd, ve, vf, vg, vh] =>
      let t₁ := (vh + bigSigma1 ve + chFn ve vf vg + ws.getD i 0 + k256.getD i 0) % m32
      let t₂ := (bigSigma0 va + majFn va vb vc) % m32
      [(t₁ + t₂) % m32, va, vb, vc, (vd + t₁) % m32, ve, vf, vg]
  | _ => st

/-- Compress one 64-byte block into the running hash. -/
def sha256Compress (h : List Nat) (block : List Nat) : List Nat :=
  let ws := extendSchedule (bytesToWords block)
  let final := (List.range 64).foldl (sha256Round ws) h
  List.zipWith (fun x y => (x + y) % m32) h final

/-- SHA-256 of a byte list, as the 32 digest bytes (the model of
`hashlib.sha256(...).digest()`). -/
def sha256 (msg : List Nat) : List Nat :=
  let blocks := List.toChunks 64 (sha256Pad msg)
  let hFinal := blocks.foldl sha256Compress h256
  hFinal.foldr (fun w acc => beBytes4 w ++ acc) []

/-- The URL-safe base64 alphabet used by `base64.urlsafe_b64encode`. -/
def b64UrlAlphabet : List Char :=
  "ABCDEFGHIJKLMNOPQRSTUVWXYZabcdefghijklmnopqrstuvwxyz0123456789-_".data

def b64Char (n : Nat) : Char := b64UrlAlphabet.getD n 'A'

/-- `base64.urlsafe_b64encode` over bytes, producing padded base64. -/
def b64EncodeCore : List Nat → List Char
  | b₁ :: b₂ :: b₃ :: rest =>
      b64Char (b₁ / 4) :: b64Char ((b₁ % 4) * 16 + b₂ / 16) ::
      b64Char ((b₂ % 16) * 4 + b₃ / 64) :: b64Char (b₃ % 64) :: b64EncodeCore rest
  | [b₁, b₂] =>
      [b64Char (b₁ / 4), b64Char ((b₁ % 4) * 16 + b₂ / 16), b64Char ((b₂ % 16) * 4), '=']
  | [b₁] => [b64Char (b₁ / 4), b64Char ((b₁ % 4) * 16), '=', '=']
  | [] => []

/-- Python `.rstrip("=")`: drop every trailing `=`. -/
def stripTrailingPad (cs : List Char) : List Char :=
  (cs.reverse.dropWhile (fun c => c = '=')).reverse

/-- Modelled from the spec: the unpadded URL-safe base64 encoding
(`base64url_nopad`), written directly without a padding step — the
spec-side formulation that `generate_code_challenge` is compared
against. -/
def base64UrlNoPadCore : List Nat → List Char
  | b₁ :: b₂ :: b₃ :: rest =>
      b64Char (b₁ / 4) :: b64Char ((b₁ % 4) * 16 + b₂ / 16) ::
      b64Char ((b₂ % 16) * 4 + b₃ / 64) :: b64Char (b₃ % 64) :: base64UrlNoPadCore rest
  | [b₁, b₂] =>
      [b64Char (b₁ / 4), b64Char ((b₁ % 4) * 16 + b₂ / 16), b64Char ((b₂ % 16) * 4)]
  | [b₁] => [b64Char (b₁ / 4), b64Char ((b₁ % 4) * 16)]
  | [] => []

def base64UrlNoPad (bytes : List Nat) : String := String.mk (base64UrlNoPadCore bytes)

/-- ASCII bytes of a string (`.encode("ascii")`; every string the package
encodes is ASCII). -/
def asciiBytes (s : String) : List Nat := s.data.map Char.toNat

/-- `pkce.py` `generate_code_verifier`, with the 64 bytes drawn from
`secrets.token_bytes(64)` passed explicitly. -/
def generate_code_verifier (randomBytes : List Nat) : String :=
  String.mk (stripTrailingPad (b64EncodeCore randomBytes))

/-- `pkce.py` `generate_code_challenge`: URL-safe base64 of the SHA-256
digest of the verifier, with `=` padding stripped. -/
def generate_code_challenge (verifier : String) : String :=
  String.mk (stripTrailingPad (b64EncodeCore (sha256 (asciiBytes verifier))))

/-- `pkce.py` `PKCEPair`. -/
structure PKCEPair where
  verifier : String
  challenge : String
deriving DecidableEq

/-- `pkce.py` `generate_pkce`, with the random bytes passed explicitly. -/
def generate_pkce (randomBytes : List Nat) : PKCEPair :=
  let verifier := generate_code_verifier randomBytes
  let challenge := generate_code_challenge verifier
  ⟨verifier, challenge⟩

/-! ### `oauth.py`: token exchange, refresh, and the valid-token check -/

/-- `constants.py` `CLAUDE_OAUTH_CLIENT_ID`. -/
def CLAUDE_OAUTH_CLIENT_ID : String := "9d1c250a-e61b-44d9-88ed-5944d1962f5e"

/-- `constants.py` `CLAUDE_OAUTH_TOKEN_URL`. -/
def CLAUDE_OAUTH_TOKEN_URL : String := "https://console.anthropic.com/v1/oauth/token"

/-- `constants.py` `CLAUDE_OAUTH_REDIRECT_URI`. -/
def CLAUDE_OAUTH_REDIRECT_URI : String := "https://console.anthropic.com/oauth/code/callback"

/-- An HTTP response from the provider (the part of an `httpx.Response`
the package reads: status code and body text). -/
structure HttpResponse where
  status : Nat
  body : String
deriving DecidableEq

/-- `httpx` `response.is_success`: a 2xx status. -/
def HttpResponse.isSuccess (r : HttpResponse) : Bool :=
  200 ≤ r.status && r.status < 300

/-- Observable side effects of the OAuth coordinator, in order:
HTTP POSTs to the provider and saves to the credential store. -/
inductive Effect where
  | httpPost (url : String) (body : Json)
  | saveCredentials (c : ClaudeOAuthCredentials)

/-- Python `"#" in authorization_code`. -/
def hashIn (s : String) : Bool := s.data.contains '#'

/-- oauth.py line 63: `authorization_code.strip().split("#", 1)` when the
input contains `#`, else `(authorization_code.strip(), "")`. -/
def splitAuthorizationCode (authorization_code : String) : String × String :=
  if hashIn authorization_code then
    let l := stripChars authorization_code.data
    (String.mk (l.takeWhile (fun c => c != '#')),
     String.mk ((l.dropWhile (fun c => c != '#')).drop 1))
  else (pyStrip authorization_code, "")

/-- The `ClaudeOAuthCredentials(...)` construction in
`exchange_code_for_tokens` (oauth.py lines 84-89); both
`_current_time_ms()` calls are modelled as the same `now_ms`. -/
def buildExchangeCreds (data : Json) (now_ms : Int) :
    Except PyErr ClaudeOAuthCredentials := do
  let aJ ← pyIndex data "access_token"
  let rJ ← pyIndex data "refresh_token"
  let eJ ← pyIndex data "expires_in"
  match aJ, rJ, eJ with
  | .str a, .str r, .num e =>
      pure { access_token := a, refresh_token := r,
             expires_at := now_ms + e * 1000, connected_at := now_ms }
  | _, _, _ => .error .typeError

/-- `oauth.py` `exchange_code_for_tokens`.  The process-local
`_pending_pkce` global, the token-endpoint response, the current time and
the persisted store are explicit arguments; the result carries the new
`_pending_pkce`, the new store, and the ordered effect trace. -/
def exchange_code_for_tokens (authorization_code : String)
    (code_verifier : Option String) (pending : Option PKCEPair)
    (resp : HttpResponse) (now_ms : Int)
    (store : Option ClaudeOAuthCredentials) :
    Except PyErr ClaudeOAuthCredentials × Option PKCEPair ×
      Option ClaudeOAuthCredentials × List Effect :=
  let verifier : Option String :=
    match code_verifier with
    | some v => if v.isEmpty then pending.map PKCEPair.verifier else some v
    | none => pending.map PKCEPair.verifier
  let verifierMissing : Bool :=
    match verifier with
    | none => true
    | some v => v.isEmpty
  if verifierMissing then
    (.error (.valueError "No code verifier found. Start OAuth flow first."),
     pending, store, [])
  else
    let v := verifier.getD ""
    let cs := splitAuthorizationCode authorization_code
    let requestBody := Json.obj
      [("code", .str cs.1), ("state", .str cs.2),
       ("grant_type", .str "authorization_code"),
       ("client_id", .str CLAUDE_OAUTH_CLIENT_ID),
       ("redirect_uri", .str CLAUDE_OAUTH_REDIRECT_URI),
       ("code_verifier", .str v)]
    let effects := [Effect.httpPost CLAUDE_OAUTH_TOKEN_URL requestBody]
    if ¬ resp.isSuccess then
      (.error (.runtimeError ("Token exchange failed: " ++ resp.body)),
       pending, store, effects)
    else
      match jsonLoads resp.body with
      | none => (.error .jsonDecodeError, pending, store, effects)
      | some data =>
        match buildExchangeCreds data now_ms with
        | .ok creds =>
            (.ok creds, none, some creds, effects ++ [Effect.saveCredentials creds])
        | .error e => (.error e, none, store, effects)

/-- The `ClaudeOAuthCredentials(...)` construction in
`refresh_access_token` (oauth.py lines 111-116): the refresh token falls
back to the old one via `data.get("refresh_token",
credentials.refresh_token)` and `connected_at` is copied from the old
credentials. -/
def buildRefreshCreds (credentials : ClaudeOAuthCredentials) (data : Json)
    (now_ms : Int) : Except PyErr ClaudeOAuthCredentials := do
  let aJ ← pyIndex data "access_token"
  let rJ ← pyGet data "refresh_token" (Json.str credentials.refresh_token)
  let eJ ← pyIndex data "expires_in"
  match aJ, rJ, eJ with
  | .str a, .str r, .num e =>
      pure { access_token := a, refresh_token := r,
             expires_at := now_ms + e * 1000,
             connected_at := credentials.connected_at }
  | _, _, _ => .error .typeError

/-- `oauth.py` `refresh_access_token`, over the token-endpoint response,
the current time and the persisted store; returns the result and the new
store (`save_credentials` only runs on the success path). -/
def refresh_access_token (credentials : ClaudeOAuthCredentials)
    (resp : HttpResponse) (now_ms : Int)
    (store : Option ClaudeOAuthCredentials) :
    Except PyErr ClaudeOAuthCredentials × Option ClaudeOAuthCredentials :=
  if ¬ resp.isSuccess then
    (.error (.runtimeError ("Token refresh failed: " ++ resp.body)), store)
  else
    match jsonLoads resp.body with
    | none => (.error .jsonDecodeError, store)
    | some data =>
      match buildRefreshCreds credentials data now_ms with
      | .ok nc => (.ok nc, some nc)
      | .error e => (.error e, store)

/-- `oauth.py` `get_valid_access_token`.  `loaded` is the result of
`load_credentials()`, `resp`/`store` parameterize the refresh call; the
second component counts how many refresh calls were performed. -/
def get_valid_access_token (loaded : Option ClaudeOAuthCredentials)
    (now_ms : Int) (resp : HttpResponse)
    (store : Option ClaudeOAuthCredentials) :
    Except PyErr String × Nat × Option ClaudeOAuthCredentials :=
  match loaded with
  | none => (.error (.runtimeError "Not authenticated. Run login first."), 0, store)
  | some credentials =>
    let buffer_ms : Int := 5 * 60 * 1000
    if credentials.expires_at ≤ now_ms + buffer_ms then
      match refresh_access_token credentials resp now_ms store with
      | (.ok c₂, store₂) => (.ok c₂.access_token, 1, store₂)
      | (.error e, store₂) => (.error e, 1, store₂)
    else (.ok credentials.access_token, 0, store)

/-! ### `client.py`: the blocking `chat` call -/

/-- Python list subscription `l[i]` (nonnegative index). -/
def pyIndexInt (j : Json) (i : Nat) : Except PyErr Json :=
  match j with
  | .arr l =>
      match l.get? i with
      | some v => .ok v
      | none => .error .indexError
  | _ => .error .typeError

/-- The `ChatResponse(...)` construction in `chat`
(client.py lines 95-102), including
`data["content"][0].get("text", "") if data["content"] else ""`. -/
def buildChatResponse (data : Json) : Except PyErr ChatResponse := do
  let idJ ← pyIndex data "id"
  let contentJ ← pyIndex data "content"
  let textJ ←
    if contentJ.truthy then do
      let first ← pyIndexInt contentJ 0
      pyGet first "text" (Json.str "")
    else pure (Json.str "")
  let modelJ ← pyIndex data "model"
  let srJ ← pyIndex data "stop_reason"
  let usageJ ← pyIndex data "usage"
  let itJ ← pyIndex usageJ "input_tokens"
  let otJ ← pyIndex usageJ "output_tokens"
  match idJ, textJ, modelJ, srJ, itJ, otJ with
  | .str i, .str t, .str m, .str sr, .num it, .num ot =>
      pure { id := i, content := t, model := m, stop_reason := sr,
             input_tokens := it, output_tokens := ot }
  | _, _, _, _, _, _ => .error .typeError

/-- `client.py` `chat`, over the chat-endpoint response: a non-2xx
response raises `RuntimeError` with the status code and body
(client.py lines 90-91), a 2xx response is parsed into a
`ChatResponse`. -/
def chat (resp : HttpResponse) : Except PyErr ChatResponse :=
  if ¬ resp.isSuccess then
    .error (.runtimeError
      ("API request failed: " ++ natToDec resp.status ++ " - " ++ resp.body))
  else
    match jsonLoads resp.body with
    | none => .error .jsonDecodeError
    | some data => buildChatResponse data

theorem b64Char_ne_pad (n : Nat) : b64Char n ≠ '=' := by
  by_cases h : n < 64
  · exact (by decide : ∀ m, m < 64 → b64Char m ≠ '=') n h
  · unfold b64Char
    rw [List.getD_eq_default]
    · decide
    · have hlen : b64UrlAlphabet.length = 64 := by decide
      omega

theorem b64EncodeCore_head (b : Nat) (rest : List Nat) :
    ∃ t, b64EncodeCore (b :: rest) = b64Char (b / 4) :: t := by
  match rest with
  | [] => exact ⟨_, rfl⟩
  | [x] => exact ⟨_, rfl⟩
  | x :: y :: zs => exact ⟨_, rfl⟩

theorem strip_b64Encode_eq_noPad (l : List Nat) :
    stripTrailingPad (b64EncodeCore l) = base64UrlNoPadCore l := by
  induction l using b64EncodeCore.induct with
  | case1 b₁ b₂ b₃ rest ih =>
      cases rest with
      | nil =>
          simp [b64EncodeCore, base64UrlNoPadCore, stripTrailingPad,
                List.dropWhile_cons, b64Char_ne_pad]
      | cons r rs =>
          obtain ⟨t, ht⟩ := b64EncodeCore_head r rs
          have hne : (List.dropWhile (fun c => c = '=')
              (b64EncodeCore (r :: rs)).reverse) ≠ [] := by
            intro hnil
            have hall := List.dropWhile_eq_nil_iff.mp hnil
            have hmem : b64Char (r / 4) ∈ (b64EncodeCore (r :: rs)).reverse := by
              rw [ht]; simp
            have hb := hall _ hmem
            simp only [decide_eq_true_eq] at hb
            exact b64Char_ne_pad (r / 4) hb
          have hchunk : b64EncodeCore (b₁ :: b₂ :: b₃ :: r :: rs) =
              [b64Char (b₁ / 4), b64Char ((b₁ % 4) * 16 + b₂ / 16),
               b64Char ((b₂ % 16) * 4 + b₃ / 64), b64Char (b₃ % 64)] ++
              b64EncodeCore (r :: rs) := rfl
          have hempty : (List.dropWhile (fun c => c = '=')
              (b64EncodeCore (r :: rs)).reverse).isEmpty = false := by
            cases hdw : List.dropWhile (fun c => c = '=')
                (b64EncodeCore (r :: rs)).reverse with
            | nil => exact absurd hdw hne
            | cons _ _ => rfl
          rw [hchunk]
          unfold stripTrailingPad
          rw [List.reverse_append, List.dropWhile_append, hempty]
          simp only [Bool.false_eq_true, if_false]
          rw [List.reverse_append, List.reverse_reverse]
          have hrest : (List.dropWhile (fun c => c = '=')
              (b64EncodeCore (r :: rs)).reverse).reverse = base64UrlNoPadCore (r :: rs) := ih
          rw [hrest]
          rfl
  | case2 b₁ b₂ =>
      simp [b64EncodeCore, base64UrlNoPadCore, stripTrailingPad,
            List.dropWhile_cons, b64Char_ne_pad]
  | case3 b₁ =>
      simp [b64EncodeCore, base64UrlNoPadCore, stripTrailingPad,
            List.dropWhile_cons, b64Char_ne_pad]
  | case4 => rfl

set_option maxRecDepth 10000

/-- Known-answer test: the model's `generate_code_challenge` on input
`abc` agrees with the value computed by CPython's
`base64.urlsafe_b64encode(hashlib.sha256(b"abc").digest()).rstrip(b"=")`. -/
theorem generate_code_challenge_abc :
    generate_code_challenge "abc" = "ungWv48Bz-pBQUDeXa4iI7ADYaOWF3qctBD_YfIAFa0" := by
  decide

/-- C5: for every verifier, the generated challenge equals the unpadded
URL-safe base64 encoding of the SHA-256 digest of the verifier; challenge
generation is deterministic in the verifier; and the pair returned by
`generate_pkce` satisfies the same equation. -/
theorem generate_pkce_challenge_spec :
    (∀ v : String, generate_code_challenge v = base64UrlNoPad (sha256 (asciiBytes v))) ∧
    (∀ v₁ v₂ : String, v₁ = v₂ →
      generate_code_challenge v₁ = generate_code_challenge v₂) ∧
    (∀ randomBytes : List Nat,
      (generate_pkce randomBytes).challenge =
        base64UrlNoPad (sha256 (asciiBytes (generate_pkce randomBytes).verifier))) := by
  have main : ∀ v : String,
      generate_code_challenge v = base64UrlNoPad (sha256 (asciiBytes v)) := by
    intro v
    unfold generate_code_challenge base64UrlNoPad
    rw [strip_b64Encode_eq_noPad]
  exact ⟨main, fun v₁ v₂ h => by rw [h], fun rb => main (generate_pkce rb).verifier⟩

/-- Witness for `generate_pkce_challenge_spec`: its conjuncts applied to
the concrete verifier `abc` and the concrete 3-byte random input. -/
theorem generate_pkce_challenge_spec_witness :
    generate_code_challenge "abc" = base64UrlNoPad (sha256 (asciiBytes "abc")) ∧
    generate_code_challenge "abc" = generate_code_challenge "abc" ∧
    (generate_pkce [1, 2, 3]).challenge =
      base64UrlNoPad (sha256 (asciiBytes (generate_pkce [1, 2, 3]).verifier)) :=
  ⟨generate_pkce_challenge_spec.1 "abc",
   generate_pkce_challenge_spec.2.1 "abc" "abc" rfl,
   generate_pkce_challenge_spec.2.2 [1, 2, 3]⟩

/-- C1: on the scripted SSE input (`message_start` with id `msg_1` and
model `m1`, two `content_block_delta` events with texts `Hel` and `lo`,
a `message_delta` with stop reason `end_turn` and usage 10/2, then
`[DONE]`), iterating `ChatStream` yields exactly `Hel` then `lo` and the
finalized response is `ChatResponse "msg_1" "Hello" "m1" "end_turn" 10 2`;
moreover the `[DONE]` sentinel, every line without the `data: ` marker,
and every `data: ` line whose payload fails JSON decoding are skipped
silently, yielding nothing and leaving the state unchanged. -/
theorem chatStream_scripted_sse_run :
    runChatStream sseScript =
      Except.ok (["Hel", "lo"],
        { id := "msg_1", content := "Hello", model := "m1", stop_reason := "end_turn",
          input_tokens := 10, output_tokens := 2 }) ∧
    (∀ (st : StreamState) (line : String), ¬ (List.isPrefixOf "data: ".data line.data) →
      processLine st line = Except.ok (st, [])) ∧
    (∀ st : StreamState, processLine st "data: [DONE]" = Except.ok (st, [])) ∧
    (∀ (st : StreamState) (line : String), List.isPrefixOf "data: ".data line.data →
      jsonLoads (String.mk (line.data.drop 6)) = none →
      String.mk (line.data.drop 6) ≠ "[DONE]" →
      processLine st line = Except.ok (st, [])) := by
  refine ⟨by decide, ?_, ?_, ?_⟩
  · intro st line h
    simp [processLine, h]
  · intro st
    rfl
  · intro st line h₁ h₂ h₃
    simp [processLine, h₁, h₂, h₃]

/-- Witness for `chatStream_scripted_sse_run`: the skip conjuncts applied
to the concrete lines `"ping"`, `"data: [DONE]"` and `"data: nonsense"`. -/
theorem chatStream_scripted_sse_run_witness :
    processLine initStreamState "ping" = Except.ok (initStreamState, []) ∧
    processLine initStreamState "data: [DONE]" = Except.ok (initStreamState, []) ∧
    processLine initStreamState "data: nonsense" = Except.ok (initStreamState, []) :=
  ⟨chatStream_scripted_sse_run.2.1 initStreamState "ping" (by decide),
   chatStream_scripted_sse_run.2.2.1 initStreamState,
   chatStream_scripted_sse_run.2.2.2 initStreamState "data: nonsense"
     (by decide) (by rfl) (by decide)⟩

/-- C3: loading credentials returns `none` (not authenticated) for an
absent file, for content that is not valid JSON, and for a JSON object
missing any of the four required fields — but, contrary to the claim and
spec, content that is valid JSON and NOT an object (e.g. the array
`[]`) raises an uncaught `TypeError`: the clause
`except (json.JSONDecodeError, KeyError, OSError)` does not cover the
`TypeError` from subscripting a non-dict, so that case IS a fatal
error. -/
theorem load_credentials_malformed_handling :
    load_credentials none = Except.ok none ∧
    (∀ text : String, jsonLoads text = none →
      load_credentials (some text) = Except.ok none) ∧
    (∀ (text : String) (fields : List (String × Json)),
      jsonLoads text = some (Json.obj fields) →
      ((Json.obj fields).dictLookup "accessToken" = none ∨
       (Json.obj fields).dictLookup "refreshToken" = none ∨
       (Json.obj fields).dictLookup "expiresAt" = none ∨
       (Json.obj fields).dictLookup "connectedAt" = none) →
      load_credentials (some text) = Except.ok none) ∧
    load_credentials (some "[]") = Except.error PyErr.typeError := by
  refine ⟨rfl, ?_, ?_, by decide⟩
  · intro text h
    simp [load_credentials, h]
  · intro text fields hparse hmiss
    rcases h₁ : (Json.obj fields).dictLookup "accessToken" with _ | v₁
    · simp [load_credentials, hparse, buildStoredCreds, pyIndex, h₁, Bind.bind, Except.bind]
    · rcases h₂ : (Json.obj fields).dictLookup "refreshToken" with _ | v₂
      · simp [load_credentials, hparse, buildStoredCreds, pyIndex, h₁, h₂, Bind.bind, Except.bind]
      · rcases h₃ : (Json.obj fields).dictLookup "expiresAt" with _ | v₃
        · simp [load_credentials, hparse, buildStoredCreds, pyIndex, h₁, h₂, h₃, Bind.bind, Except.bind]
        · rcases h₄ : (Json.obj fields).dictLookup "connectedAt" with _ | v₄
          · simp [load_credentials, hparse, buildStoredCreds, pyIndex, h₁, h₂, h₃, h₄, Bind.bind, Except.bind]
          · simp [h₁, h₂, h₃, h₄] at hmiss

/-- Witness for `load_credentials_malformed_handling`: unparseable
content `notjson` and the empty JSON object both load as `none`. -/
theorem load_credentials_malformed_handling_witness :
    load_credentials (some "notjson") = Except.ok none ∧
    load_credentials (some "\x7b\x7d") = Except.ok none :=
  ⟨load_credentials_malformed_handling.2.1 "notjson" (by rfl),
   load_credentials_malformed_handling.2.2.1 "\x7b\x7d" [] (by rfl) (Or.inl (by rfl))⟩

/-- C9: calling the code exchange with no process-local pending verifier
and no explicit verifier argument fails with the invalid-flow-state
`ValueError` and issues no HTTP request (empty effect trace), leaving the
pending state and store untouched. -/
theorem exchange_without_verifier_fails_before_http :
    ∀ (authorization_code : String) (resp : HttpResponse) (now_ms : Int)
      (store : Option ClaudeOAuthCredentials),
      exchange_code_for_tokens authorization_code none none resp now_ms store =
        (.error (.valueError "No code verifier found. Start OAuth flow first."),
         none, store, []) := by
  intro a r n s
  rfl

/-- C10: an explicitly supplied empty verifier is treated exactly as no
verifier argument (Python `or` falsiness): the call with `some ""` equals
the call with `none` for every pending state, response, time and store —
in particular it falls back to the pending verifier when one exists and
fails with the no-verifier error when none does, and the empty string is
never used in the token-exchange request. -/
theorem exchange_empty_verifier_falls_back :
    (∀ (authorization_code : String) (pending : Option PKCEPair)
       (resp : HttpResponse) (now_ms : Int)
       (store : Option ClaudeOAuthCredentials),
       exchange_code_for_tokens authorization_code (some "") pending resp now_ms store =
         exchange_code_for_tokens authorization_code none pending resp now_ms store) ∧
    (∀ (authorization_code : String) (resp : HttpResponse) (now_ms : Int)
       (store : Option ClaudeOAuthCredentials),
       exchange_code_for_tokens authorization_code (some "") none resp now_ms store =
         (.error (.valueError "No code verifier found. Start OAuth flow first."),
          none, store, [])) :=
  ⟨fun _ _ _ _ _ => rfl, fun _ _ _ _ => rfl⟩

/-- C7: a refresh attempt that fails with a non-2xx provider response
returns the refresh-failed error and leaves the persisted store
unchanged — no save occurs on the error path. -/
theorem failed_refresh_leaves_store_unchanged :
    ∀ (credentials : ClaudeOAuthCredentials) (resp : HttpResponse) (now_ms : Int)
      (store : Option ClaudeOAuthCredentials),
      resp.isSuccess = false →
      refresh_access_token credentials resp now_ms store =
        (.error (.runtimeError ("Token refresh failed: " ++ resp.body)), store) := by
  intro c r n s h
  simp [refresh_access_token, h]

/-- Witness for `failed_refresh_leaves_store_unchanged`: a 400 response
with a populated store. -/
theorem failed_refresh_leaves_store_unchanged_witness :
    refresh_access_token ⟨"at", "rt", 0, 0⟩ ⟨400, "bad request"⟩ 0
        (some ⟨"at", "rt", 0, 0⟩) =
      (.error (.runtimeError "Token refresh failed: bad request"),
       some ⟨"at", "rt", 0, 0⟩) :=
  failed_refresh_leaves_store_unchanged ⟨"at", "rt", 0, 0⟩ ⟨400, "bad request"⟩ 0
    (some ⟨"at", "rt", 0, 0⟩) (by decide)

/-- C4: `get_valid_access_token` fails with the unauthenticated error and
performs zero refresh calls when no credentials load; when credentials
exist and `expires_at ≤ now_ms + 5 minutes` it performs exactly one
refresh call and returns the refreshed access token; otherwise it
performs zero refresh calls and returns the stored token unchanged. -/
theorem get_valid_access_token_refresh_policy :
    (∀ (now_ms : Int) (resp : HttpResponse)
       (store : Option ClaudeOAuthCredentials),
      get_valid_access_token none now_ms resp store =
        (.error (.runtimeError "Not authenticated. Run login first."), 0, store)) ∧
    (∀ (c : ClaudeOAuthCredentials) (now_ms : Int) (resp : HttpResponse)
       (store : Option ClaudeOAuthCredentials),
      c.expires_at ≤ now_ms + 5 * 60 * 1000 →
      (get_valid_access_token (some c) now_ms resp store).2.1 = 1 ∧
      (∀ (nc : ClaudeOAuthCredentials) (store₂ : Option ClaudeOAuthCredentials),
        refresh_access_token c resp now_ms store = (.ok nc, store₂) →
        get_valid_access_token (some c) now_ms resp store =
          (.ok nc.access_token, 1, store₂))) ∧
    (∀ (c : ClaudeOAuthCredentials) (now_ms : Int) (resp : HttpResponse)
       (store : Option ClaudeOAuthCredentials),
      now_ms + 5 * 60 * 1000 < c.expires_at →
      get_valid_access_token (some c) now_ms resp store =
        (.ok c.access_token, 0, store)) := by
  refine ⟨fun _ _ _ => rfl, ?_, ?_⟩
  · intro c now resp store h
    constructor
    · rw [get_valid_access_token, if_pos h]
      rcases href : refresh_access_token c resp now store with ⟨res, store₂⟩
      cases res <;> rfl
    · intro nc store₂ href
      rw [get_valid_access_token, if_pos h, href]
  · intro c now resp store h
    rw [get_valid_access_token, if_neg (by omega)]

/-- Witness for `get_valid_access_token_refresh_policy`: a credential
record that is already expired (so the buffer check fires) together with
a successful refresh response, and a fresh record outside the buffer. -/
theorem get_valid_access_token_refresh_policy_witness :
    (get_valid_access_token (some ⟨"tok", "rt", 0, 100⟩) 0
        ⟨200, "\x7b\"access_token\": \"new\", \"refresh_token\": \"nr\", \"expires_in\": 3600\x7d"⟩
        none).2.1 = 1 ∧
    get_valid_access_token (some ⟨"tok", "rt", 0, 100⟩) 0
        ⟨200, "\x7b\"access_token\": \"new\", \"refresh_token\": \"nr\", \"expires_in\": 3600\x7d"⟩
        none =
      (.ok "new", 1, some ⟨"new", "nr", 3600000, 100⟩) ∧
    get_valid_access_token (some ⟨"tok", "rt", 10000000, 100⟩) 0 ⟨200, ""⟩ none =
      (.ok "tok", 0, none) :=
  ⟨(get_valid_access_token_refresh_policy.2.1 ⟨"tok", "rt", 0, 100⟩ 0
      ⟨200, "\x7b\"access_token\": \"new\", \"refresh_token\": \"nr\", \"expires_in\": 3600\x7d"⟩
      none (by decide)).1,
   (get_valid_access_token_refresh_policy.2.1 ⟨"tok", "rt", 0, 100⟩ 0
      ⟨200, "\x7b\"access_token\": \"new\", \"refresh_token\": \"nr\", \"expires_in\": 3600\x7d"⟩
      none (by decide)).2 ⟨"new", "nr", 3600000, 100⟩ (some ⟨"new", "nr", 3600000, 100⟩)
      (by decide),
   get_valid_access_token_refresh_policy.2.2 ⟨"tok", "rt", 10000000, 100⟩ 0 ⟨200, ""⟩
      none (by decide)⟩

theorem buildRefreshCreds_ok {c : ClaudeOAuthCredentials} {data : Json}
    {now : Int} {nc : ClaudeOAuthCredentials}
    (h : buildRefreshCreds c data now = .ok nc) :
    nc.connected_at = c.connected_at ∧
    ((data.dictLookup "refresh_token" = none ∧
      nc.refresh_token = c.refresh_token) ∨
     (∃ s, data.dictLookup "refresh_token" = some (Json.str s) ∧
       nc.refresh_token = s)) := by
  cases data with
  | null => simp [buildRefreshCreds, pyIndex, Bind.bind, Except.bind] at h
  | bool b => simp [buildRefreshCreds, pyIndex, Bind.bind, Except.bind] at h
  | num n => simp [buildRefreshCreds, pyIndex, Bind.bind, Except.bind] at h
  | str s => simp [buildRefreshCreds, pyIndex, Bind.bind, Except.bind] at h
  | arr l => simp [buildRefreshCreds, pyIndex, Bind.bind, Except.bind] at h
  | obj fields =>
    rcases ha : (Json.obj fields).dictLookup "access_token" with _ | aJ
    · simp [buildRefreshCreds, pyIndex, ha, Bind.bind, Except.bind] at h
    · rcases he : (Json.obj fields).dictLookup "expires_in" with _ | eJ
      · simp [buildRefreshCreds, pyIndex, pyGet, ha, he, Bind.bind, Except.bind] at h
      · rcases hr : (Json.obj fields).dictLookup "refresh_token" with _ | rJ
        · cases aJ <;> cases eJ <;>
            simp only [buildRefreshCreds, pyIndex, pyGet, ha, he, hr, Bind.bind,
                       Except.bind, Option.getD, pure, Except.pure, reduceCtorEq,
                       Except.ok.injEq] at h
          subst h
          exact ⟨rfl, Or.inl ⟨rfl, rfl⟩⟩
        · cases aJ <;> cases rJ <;> cases eJ <;>
            simp only [buildRefreshCreds, pyIndex, pyGet, ha, he, hr, Bind.bind,
                       Except.bind, Option.getD, pure, Except.pure, reduceCtorEq,
                       Except.ok.injEq] at h
          subst h
          exact ⟨rfl, Or.inr ⟨_, rfl, rfl⟩⟩

/-- C6: a successful refresh of existing credentials preserves
`connected_at` unchanged; the new refresh token is the provider's when
the refresh response contains one and the old record's otherwise; and
the new record is persisted to the store. -/
theorem refresh_success_frame :
    ∀ (c nc : ClaudeOAuthCredentials) (resp : HttpResponse) (now_ms : Int)
      (store store₂ : Option ClaudeOAuthCredentials) (data : Json),
      jsonLoads resp.body = some data →
      refresh_access_token c resp now_ms store = (.ok nc, store₂) →
      nc.connected_at = c.connected_at ∧
      store₂ = some nc ∧
      ((data.dictLookup "refresh_token" = none ∧
        nc.refresh_token = c.refresh_token) ∨
       (∃ s, data.dictLookup "refresh_token" = some (Json.str s) ∧
         nc.refresh_token = s)) := by
  intro c nc resp now store store₂ data hparse hrun
  by_cases hs : resp.isSuccess
  · rw [refresh_access_token] at hrun
    simp only [hs, not_true_eq_false, if_false, Bool.not_eq_true] at hrun
    simp only [hparse] at hrun
    cases hb : buildRefreshCreds c data now with
    | error e => rw [hb] at hrun; simp at hrun
    | ok nc' =>
        rw [hb] at hrun
        simp only [Prod.mk.injEq, Except.ok.injEq] at hrun
        obtain ⟨h₁, h₂⟩ := hrun
        subst h₁
        have hh := buildRefreshCreds_ok hb
        exact ⟨hh.1, h₂.symm, hh.2⟩
  · simp [refresh_access_token, hs] at hrun

/-- Witness for `refresh_success_frame`: a concrete refresh response that
rotates the refresh token. -/
theorem refresh_success_frame_witness :
    (⟨"na", "nr", 10000, 42⟩ : ClaudeOAuthCredentials).connected_at =
      (⟨"old", "or", 0, 42⟩ : ClaudeOAuthCredentials).connected_at ∧
    (some ⟨"na", "nr", 10000, 42⟩ : Option ClaudeOAuthCredentials) =
      some ⟨"na", "nr", 10000, 42⟩ ∧
    (((Json.obj [("access_token", Json.str "na"), ("refresh_token", Json.str "nr"),
        ("expires_in", Json.num 10)]).dictLookup "refresh_token" = none ∧
      (⟨"na", "nr", 10000, 42⟩ : ClaudeOAuthCredentials).refresh_token =
        (⟨"old", "or", 0, 42⟩ : ClaudeOAuthCredentials).refresh_token) ∨
     (∃ s, (Json.obj [("access_token", Json.str "na"), ("refresh_token", Json.str "nr"),
        ("expires_in", Json.num 10)]).dictLookup "refresh_token" =
          some (Json.str s) ∧
       (⟨"na", "nr", 10000, 42⟩ : ClaudeOAuthCredentials).refresh_token = s)) :=
  refresh_success_frame ⟨"old", "or", 0, 42⟩ ⟨"na", "nr", 10000, 42⟩
    ⟨200, "\x7b\"access_token\": \"na\", \"refresh_token\": \"nr\", \"expires_in\": 10\x7d"⟩
    0 none (some ⟨"na", "nr", 10000, 42⟩)
    (Json.obj [("access_token", Json.str "na"), ("refresh_token", Json.str "nr"),
      ("expires_in", Json.num 10)])
    (by rfl) (by decide)

theorem string_data_inj {a b : String} (h : a.data = b.data) : a = b := by
  cases a; cases b; exact congrArg String.mk h

theorem head_dropWhile_false {p : Char → Bool} :
    ∀ (l : List Char) (x : Char) (xs : List Char),
      l.dropWhile p = x :: xs → p x = false := by
  intro l
  induction l with
  | nil => intro x xs h; simp [List.dropWhile] at h
  | cons hd tl ih =>
      intro x xs h
      rw [List.dropWhile_cons] at h
      by_cases hp : p hd
      · rw [if_pos hp] at h; exact ih x xs h
      · rw [if_neg hp] at h
        obtain ⟨rfl, rfl⟩ := List.cons.inj h
        simpa using hp

theorem mem_dropWhile_of_not {p : Char → Bool} {x : Char} (hx : p x = false) :
    ∀ l : List Char, x ∈ l → x ∈ l.dropWhile p := by
  intro l
  induction l with
  | nil => simp
  | cons hd tl ih =>
      intro hmem
      rw [List.dropWhile_cons]
      by_cases hp : p hd
      · rw [if_pos hp]
        rcases List.mem_cons.mp hmem with rfl | ht
        · rw [hx] at hp; cases hp
        · exact ih ht
      · rw [if_neg hp]; exact hmem

theorem mem_stripChars_of_not_ws {x : Char} (hx : isPyWs x = false) {l : List Char}
    (h : x ∈ l) : x ∈ stripChars l := by
  unfold stripChars
  rw [List.mem_reverse]
  apply mem_dropWhile_of_not hx
  rw [List.mem_reverse]
  exact mem_dropWhile_of_not hx _ h

/-- C8: the code-exchange input `abc123#xyzstate` splits into code
`abc123` and state `xyzstate`; an input with no `#` yields the whole
trimmed input as the code and an empty state; and whenever the input
contains `#`, the trimmed input is exactly `code ++ "#" ++ state` with no
`#` inside the code (i.e. the split happens at the first `#`). -/
theorem authorization_code_split :
    splitAuthorizationCode "abc123#xyzstate" = ("abc123", "xyzstate") ∧
    (∀ s : String, hashIn s = false →
      splitAuthorizationCode s = (pyStrip s, "")) ∧
    (∀ s : String, hashIn s = true →
      (splitAuthorizationCode s).1 ++ "#" ++ (splitAuthorizationCode s).2 =
        pyStrip s ∧
      '#' ∉ (splitAuthorizationCode s).1.data) := by
  refine ⟨by decide, ?_, ?_⟩
  · intro s h
    simp [splitAuthorizationCode, h]
  · intro s h
    have hmem : '#' ∈ s.data := by
      have : s.data.contains '#' = true := h
      simpa [List.contains] using this
    have hmem₂ : '#' ∈ stripChars s.data := mem_stripChars_of_not_ws (by decide) hmem
    set l := stripChars s.data with hl
    set q : Char → Bool := fun c => c != '#' with hq
    have hne : l.dropWhile q ≠ [] := by
      intro hnil
      have := List.dropWhile_eq_nil_iff.mp hnil _ hmem₂
      simp [hq] at this
    obtain ⟨x, xs, hdw⟩ : ∃ x xs, l.dropWhile q = x :: xs := by
      cases hcase : l.dropWhile q with
      | nil => exact absurd hcase hne
      | cons a b => exact ⟨a, b, rfl⟩
    have hx : x = '#' := by
      have hhd := head_dropWhile_false l x xs hdw
      simpa [hq] using hhd
    subst hx
    have hsplit : splitAuthorizationCode s =
        (String.mk (l.takeWhile q), String.mk ((l.dropWhile q).drop 1)) := by
      simp [splitAuthorizationCode, h, hl, hq]
    rw [hsplit]
    constructor
    · apply string_data_inj
      have hdecomp : l.takeWhile q ++ l.dropWhile q = l :=
        List.takeWhile_append_dropWhile q l
      rw [hdw] at hdecomp
      simp only [String.data_append, hdw, List.drop_succ_cons, List.drop_zero]
      show l.takeWhile q ++ '#'.toString.data ++ xs = (pyStrip s).data
      rw [show ('#'.toString.data : List Char) = ['#'] from rfl]
      rw [List.append_assoc]
      simpa [pyStrip, hl] using hdecomp
    · intro hc
      have := List.mem_takeWhile_imp hc
      simp [hq] at this

/-- Witness for `authorization_code_split`: the no-`#` case on `abc`
and the `#` case on ` a#b `. -/
theorem authorization_code_split_witness :
    splitAuthorizationCode "abc" = (pyStrip "abc", "") ∧
    ((splitAuthorizationCode " a#b ").1 ++ "#" ++ (splitAuthorizationCode " a#b ").2 =
      pyStrip " a#b " ∧
     '#' ∉ (splitAuthorizationCode " a#b ").1.data) :=
  ⟨authorization_code_split.2.1 "abc" (by decide),
   authorization_code_split.2.2 " a#b " (by decide)⟩

theorem string_append_left_cancel {p a b : String} (h : p ++ a = p ++ b) : a = b := by
  apply string_data_inj
  have hd := congrArg String.data h
  rw [String.data_append, String.data_append] at hd
  exact List.append_cancel_left hd

theorem string_append_right_cancel {p a b : String} (h : a ++ p = b ++ p) : a = b := by
  apply string_data_inj
  have hd := congrArg String.data h
  rw [String.data_append, String.data_append] at hd
  exact List.append_cancel_right hd

theorem natToDecAux_ne_nil (n : Nat) : natToDecAux n ≠ [] := by
  unfold natToDecAux
  by_cases h : n < 10
  · rw [if_pos h]; simp
  · rw [if_neg h]; simp

theorem digitChar_inj_lt :
    ∀ a, a < 10 → ∀ b, b < 10 → Nat.digitChar a = Nat.digitChar b → a = b := by
  decide

theorem natToDecAux_inj : ∀ m n : Nat, natToDecAux m = natToDecAux n → m = n := by
  intro m
  induction m using Nat.strong_induction_on with
  | _ m ih =>
    intro n h
    by_cases hm : m < 10 <;> by_cases hn : n < 10
    · unfold natToDecAux at h
      rw [if_pos hm, if_pos hn] at h
      exact digitChar_inj_lt m hm n hn (List.cons.inj h).1
    · unfold natToDecAux at h
      rw [if_pos hm, if_neg hn] at h
      have hlen := congrArg List.length h
      simp only [List.length_cons, List.length_append, List.length_nil] at hlen
      have hnil : natToDecAux (n / 10) = [] := by
        cases hcase : natToDecAux (n / 10) with
        | nil => rfl
        | cons a b => rw [hcase] at hlen; simp at hlen
      exact absurd hnil (natToDecAux_ne_nil (n / 10))
    · unfold natToDecAux at h
      rw [if_neg hm, if_pos hn] at h
      have hlen := congrArg List.length h
      simp only [List.length_cons, List.length_append, List.length_nil] at hlen
      have hnil : natToDecAux (m / 10) = [] := by
        cases hcase : natToDecAux (m / 10) with
        | nil => rfl
        | cons a b => rw [hcase] at hlen; simp at hlen
      exact absurd hnil (natToDecAux_ne_nil (m / 10))
    · unfold natToDecAux at h
      rw [if_neg hm, if_neg hn] at h
      obtain ⟨h₁, h₂⟩ := List.append_inj' h rfl
      have hdiv : m / 10 = n / 10 :=
        ih (m / 10) (Nat.div_lt_self (by omega) (by omega)) (n / 10) h₁
      have hmod : m % 10 = n % 10 :=
        digitChar_inj_lt (m % 10) (by omega) (n % 10) (by omega) (List.cons.inj h₂).1
      omega

theorem natToDec_inj {m n : Nat} (h : natToDec m = natToDec n) : m = n :=
  natToDecAux_inj m n (congrArg String.data h)

/-- C2 (amended): the chat API-request failure carries both the HTTP
status and the body — its error message embeds both, and for failing
responses agreeing on one component the error determines the other.  The
token-exchange and token-refresh failures carry only the response body:
their errors determine the body, but are identical across different
statuses with the same body (the status is not recoverable; see the
counterexample). -/
theorem provider_failure_error_payloads :
    (∀ r : HttpResponse, r.isSuccess = false →
      chat r = .error (.runtimeError
        ("API request failed: " ++ natToDec r.status ++ " - " ++ r.body))) ∧
    (∀ r₁ r₂ : HttpResponse, r₁.isSuccess = false → r₂.isSuccess = false →
      r₁.body = r₂.body → chat r₁ = chat r₂ → r₁.status = r₂.status) ∧
    (∀ r₁ r₂ : HttpResponse, r₁.isSuccess = false → r₂.isSuccess = false →
      r₁.status = r₂.status → chat r₁ = chat r₂ → r₁.body = r₂.body) ∧
    (∀ (c : ClaudeOAuthCredentials) (r₁ r₂ : HttpResponse) (now_ms : Int)
       (store : Option ClaudeOAuthCredentials),
      r₁.isSuccess = false → r₂.isSuccess = false →
      ((refresh_access_token c r₁ now_ms store).1 =
        (refresh_access_token c r₂ now_ms store).1 ↔ r₁.body = r₂.body)) ∧
    (∀ (a v : String) (p : Option PKCEPair) (r₁ r₂ : HttpResponse)
       (now_ms : Int) (store : Option ClaudeOAuthCredentials),
      v.isEmpty = false → r₁.isSuccess = false → r₂.isSuccess = false →
      ((exchange_code_for_tokens a (some v) p r₁ now_ms store).1 =
        (exchange_code_for_tokens a (some v) p r₂ now_ms store).1 ↔
       r₁.body = r₂.body)) := by
  have hchat : ∀ r : HttpResponse, r.isSuccess = false →
      chat r = .error (.runtimeError
        ("API request failed: " ++ natToDec r.status ++ " - " ++ r.body)) := by
    intro r h
    simp [chat, h]
  have hrefresh : ∀ (c : ClaudeOAuthCredentials) (r : HttpResponse) (now_ms : Int)
      (store : Option ClaudeOAuthCredentials), r.isSuccess = false →
      (refresh_access_token c r now_ms store).1 =
        .error (.runtimeError ("Token refresh failed: " ++ r.body)) := by
    intro c r now store h
    simp [refresh_access_token, h]
  have hexchange : ∀ (a v : String) (p : Option PKCEPair) (r : HttpResponse)
      (now_ms : Int) (store : Option ClaudeOAuthCredentials),
      v.isEmpty = false → r.isSuccess = false →
      (exchange_code_for_tokens a (some v) p r now_ms store).1 =
        .error (.runtimeError ("Token exchange failed: " ++ r.body)) := by
    intro a v p r now store hv h
    simp [exchange_code_for_tokens, hv, h]
  refine ⟨hchat, ?_, ?_, ?_, ?_⟩
  · intro r₁ r₂ h₁ h₂ hb heq
    rw [hchat r₁ h₁, hchat r₂ h₂] at heq
    simp only [Except.error.injEq, PyErr.runtimeError.injEq] at heq
    rw [hb] at heq
    have hmid := string_append_right_cancel (string_append_right_cancel heq)
    exact natToDec_inj (string_append_left_cancel hmid)
  · intro r₁ r₂ h₁ h₂ hs heq
    rw [hchat r₁ h₁, hchat r₂ h₂] at heq
    simp only [Except.error.injEq, PyErr.runtimeError.injEq] at heq
    rw [hs] at heq
    exact string_append_left_cancel heq
  · intro c r₁ r₂ now store h₁ h₂
    rw [hrefresh c r₁ now store h₁, hrefresh c r₂ now store h₂]
    constructor
    · intro heq
      simp only [Except.error.injEq, PyErr.runtimeError.injEq] at heq
      exact string_append_left_cancel heq
    · intro hb; rw [hb]
  · intro a v p r₁ r₂ now store hv h₁ h₂
    rw [hexchange a v p r₁ now store hv h₁, hexchange a v p r₂ now store hv h₂]
    constructor
    · intro heq
      simp only [Except.error.injEq, PyErr.runtimeError.injEq] at heq
      exact string_append_left_cancel heq
    · intro hb; rw [hb]

/-- C2 counterexample: the token-refresh and token-exchange failures do
not carry the HTTP status.  The concrete failing responses with status
400 and 500 and identical body `oops` produce identical errors, so the
status is not recoverable from either error. -/
theorem provider_failure_error_payloads_counterexample :
    ¬ (∀ (c : ClaudeOAuthCredentials) (r₁ r₂ : HttpResponse) (now_ms : Int)
        (store : Option ClaudeOAuthCredentials),
        r₁.isSuccess = false → r₂.isSuccess = false →
        (refresh_access_token c r₁ now_ms store).1 =
          (refresh_access_token c r₂ now_ms store).1 →
        r₁.status = r₂.status) ∧
    ¬ (∀ (a v : String) (p : Option PKCEPair) (r₁ r₂ : HttpResponse)
        (now_ms : Int) (store : Option ClaudeOAuthCredentials),
        r₁.isSuccess = false → r₂.isSuccess = false →
        (exchange_code_for_tokens a (some v) p r₁ now_ms store).1 =
          (exchange_code_for_tokens a (some v) p r₂ now_ms store).1 →
        r₁.status = r₂.status) := by
  constructor
  · intro hclaim
    have h := hclaim ⟨"at", "rt", 0, 0⟩ ⟨400, "oops"⟩ ⟨500, "oops"⟩ 0 none
      (by decide) (by decide) (by decide)
    exact absurd h (by decide)
  · intro hclaim
    have h := hclaim "c" "v" none ⟨400, "oops"⟩ ⟨500, "oops"⟩ 0 none
      (by decide) (by decide) (by decide)
    exact absurd h (by decide)

/-- Witness for `provider_failure_error_payloads`: concrete failing
responses for each conjunct. -/
theorem provider_failure_error_payloads_witness :
    chat ⟨404, "nope"⟩ = .error (.runtimeError
      ("API request failed: " ++ natToDec 404 ++ " - " ++ "nope")) ∧
    (404 : Nat) = 404 ∧
    ("nope" : String) = "nope" ∧
    ((refresh_access_token ⟨"a", "r", 0, 0⟩ ⟨400, "b1"⟩ 0 none).1 =
      (refresh_access_token ⟨"a", "r", 0, 0⟩ ⟨500, "b1"⟩ 0 none).1 ↔
      ("b1" : String) = "b1") ∧
    ((exchange_code_for_tokens "c" (some "v") none ⟨400, "b1"⟩ 0 none).1 =
      (exchange_code_for_tokens "c" (some "v") none ⟨500, "b1"⟩ 0 none).1 ↔
      ("b1" : String) = "b1") :=
  ⟨provider_failure_error_payloads.1 ⟨404, "nope"⟩ (by decide),
   provider_failure_error_payloads.2.1 ⟨404, "nope"⟩ ⟨404, "nope"⟩
     (by decide) (by decide) rfl rfl,
   provider_failure_error_payloads.2.2.1 ⟨404, "nope"⟩ ⟨404, "nope"⟩
     (by decide) (by decide) rfl rfl,
   provider_failure_error_payloads.2.2.2.1 ⟨"a", "r", 0, 0⟩ ⟨400, "b1"⟩ ⟨500, "b1"⟩
     0 none (by decide) (by decide),
   provider_failure_error_payloads.2.2.2.2 "c" "v" none ⟨400, "b1"⟩ ⟨500, "b1"⟩
     0 none (by decide) (by decide) (by decide)⟩

end ClaudeOAuth
